import Mathlib

/-
  Verification development for the SimpleCar MuJoCo-MPC task
  (mjpc/tasks/simple_car/simple_car.{h,cc}).

  The C++ code is shallowly embedded: C doubles/floats are modelled as
  real numbers, the mjvScene geom array is modelled as a list of geom
  records together with a capacity bound, and the random draws of
  absl::Uniform are modelled as explicit oracle inputs.  Text payloads
  produced by snprintf are modelled by a small inductive type that keeps
  the formatted arguments.
-/

set_option maxHeartbeats 1000000

/-- Three real components, modelling a float[3] / mjtNum[3] field. -/
structure Vec3 where
  x : ℝ
  y : ℝ
  z : ℝ

/-- Color with alpha, modelling the float[4] rgba field of mjvGeom. -/
structure Rgba where
  r : ℝ
  g : ℝ
  b : ℝ
  a : ℝ

/-- Row-major 3x3 matrix, modelling the float mat[9] field of mjvGeom
    (entries m0..m8 in the order the C code writes them). -/
structure Mat3 where
  m0 : ℝ
  m1 : ℝ
  m2 : ℝ
  m3 : ℝ
  m4 : ℝ
  m5 : ℝ
  m6 : ℝ
  m7 : ℝ
  m8 : ℝ

/-- The mjvGeom types used by simple_car.cc: mjGEOM_BOX, mjGEOM_ELLIPSOID,
    mjGEOM_LABEL, mjGEOM_SPHERE. -/
inductive GeomType
  | box
  | ellipsoid
  | labelGeom
  | sphere
deriving DecidableEq

/-- Text payload of a label geom.  The C code produces these with string
    literals or snprintf; we keep the format and its arguments instead of
    committing to a decimal rendering. -/
inductive LabelText
  | lit (s : String)
  | intFmt (n : ℕ)
  | fix1 (v : ℝ)
  | fix0 (v : ℝ)
  | fuelPct (v : ℝ)
  | tempC (v : ℝ)
  | carPos (x y : ℝ)
  | goalPos (x y : ℝ)

/-- MuJoCo decoration category constant mjCAT_DECOR (value 4 in mujoco.h). -/
def mjCAT_DECOR : ℕ := 4

/-- One scene geom as written by the drawing helpers of simple_car.cc.
    The mat and label fields are Options: `none` means the C code left the
    corresponding mjvGeom field untouched. -/
structure MjvGeom where
  type : GeomType
  size : Vec3
  pos : Vec3
  rgba : Rgba
  mat : Option Mat3
  label : Option LabelText
  category : ℕ

/-- The scene buffer: a capacity (mjvScene.maxgeom) and the list of geoms
    appended so far (the first ngeom entries of mjvScene.geoms, in append
    order). -/
structure MjvScene where
  maxgeom : ℕ
  geoms : List MjvGeom

/-- The current geom count (mjvScene.ngeom). -/
def MjvScene.ngeom (s : MjvScene) : ℕ := s.geoms.length

/-- SimpleCar::DashboardData with the default member initializers of
    simple_car.h. -/
structure DashboardData where
  speed_kmh : ℝ
  rpm : ℝ
  fuel : ℝ
  temperature : ℝ
  simulated_fuel : ℝ

/-- The DashboardData default member initializers (simple_car.h lines 55-63). -/
def initDashboard : DashboardData :=
  { speed_kmh := 0, rpm := 0, fuel := 100, temperature := 60, simulated_fuel := 100 }

/-- SimpleCar::UpdateDashboardData (simple_car.cc lines 52-80).  Reads the
    planar velocity (data->qvel[0], data->qvel[1]) and data->time; the time
    argument only gates a printf diagnostic with no state effect, so it is
    unused here. -/
noncomputable def UpdateDashboardData (d : DashboardData) (vx vy _time : ℝ) :
    DashboardData :=
  let speed := Real.sqrt (vx * vx + vy * vy)
  let speedKmh := speed * 3.6
  let rpm0 := speedKmh * 40.0 + 800.0
  let rpm1 := if rpm0 > 8000.0 then 8000.0 else rpm0
  let rpm2 := if rpm1 < 800.0 then 800.0 else rpm1
  let fuel0 := d.simulated_fuel - 0.001
  let fuel1 := if fuel0 < 0.0 then 100.0 else fuel0
  let temp0 := 60.0 + rpm2 / 8000.0 * 60.0
  let temp1 := if temp0 > 120.0 then 120.0 else temp0
  { speed_kmh := speedKmh, rpm := rpm2, fuel := fuel1, temperature := temp1,
    simulated_fuel := fuel1 }

/-- One telemetry update with zero velocity and time, used for the fuel
    depletion scenario (the fuel fields do not depend on the velocity). -/
noncomputable def fuelStep (d : DashboardData) : DashboardData :=
  UpdateDashboardData d 0 0 0

/-- C std::atan2(y, x), modelled as the argument of the complex number
    x + y*i (both agree on all of the plane, with atan2 0 0 = 0). -/
noncomputable def atan2 (y x : ℝ) : ℝ := Complex.arg ⟨x, y⟩

/-- The identity matrix written by Draw2DRectangle / Draw2DCircle. -/
def idMat3 : Mat3 := ⟨1, 0, 0, 0, 1, 0, 0, 0, 1⟩

/-- SimpleCar::Draw2DRectangle (simple_car.cc lines 110-141). -/
noncomputable def Draw2DRectangle (s : MjvScene) (x y width height r g b a : ℝ) :
    MjvScene :=
  if s.ngeom ≥ s.maxgeom then s
  else
    { s with geoms := s.geoms ++
        [{ type := GeomType.box, size := ⟨width, height, 0.001⟩,
           pos := ⟨x, y, 0⟩, rgba := ⟨r, g, b, a⟩, mat := some idMat3,
           label := none, category := mjCAT_DECOR }] }

/-- SimpleCar::Draw2DLine (simple_car.cc lines 143-183): a line segment
    rendered as a thin box of half-length length/2 and half-width width/2,
    centered at the segment midpoint and rotated by atan2(dy,dx) about the
    vertical axis (rotation matrix written row-major). -/
noncomputable def Draw2DLine (s : MjvScene) (x1 y1 x2 y2 width r g b a : ℝ) :
    MjvScene :=
  let dx := x2 - x1
  let dy := y2 - y1
  let length := Real.sqrt (dx * dx + dy * dy)
  let angle := atan2 dy dx
  if s.ngeom ≥ s.maxgeom then s
  else
    { s with geoms := s.geoms ++
        [{ type := GeomType.box, size := ⟨length / 2.0, width / 2.0, 0.001⟩,
           pos := ⟨(x1 + x2) / 2.0, (y1 + y2) / 2.0, 0⟩, rgba := ⟨r, g, b, a⟩,
           mat := some ⟨Real.cos angle, -Real.sin angle, 0,
                        Real.sin angle, Real.cos angle, 0,
                        0, 0, 1⟩,
           label := none, category := mjCAT_DECOR }] }

/-- SimpleCar::Draw2DCircle (simple_car.cc lines 185-216): a flattened
    ellipsoid of radius `radius` in x and y. -/
noncomputable def Draw2DCircle (s : MjvScene) (x y radius r g b a : ℝ) : MjvScene :=
  if s.ngeom ≥ s.maxgeom then s
  else
    { s with geoms := s.geoms ++
        [{ type := GeomType.ellipsoid, size := ⟨radius, radius, 0.001⟩,
           pos := ⟨x, y, 0⟩, rgba := ⟨r, g, b, a⟩, mat := some idMat3,
           label := none, category := mjCAT_DECOR }] }

/-- SimpleCar::AddLabel (simple_car.cc lines 557-575): a label geom with
    all three sizes equal, fixed alpha 1.0, no mat written. -/
noncomputable def AddLabel (s : MjvScene) (x y z : ℝ) (text : LabelText)
    (size r g b : ℝ) : MjvScene :=
  if s.ngeom < s.maxgeom then
    { s with geoms := s.geoms ++
        [{ type := GeomType.labelGeom, size := ⟨size, size, size⟩,
           pos := ⟨x, y, z⟩, rgba := ⟨r, g, b, 1.0⟩, mat := none,
           label := some text, category := mjCAT_DECOR }] }
  else s

/-- The inline goal-marker block of SimpleCar::ModifyScene (simple_car.cc
    lines 607-618): a red sphere of radius 0.15 at the goal's (x,y) and
    z = 0.2, no mat written. -/
noncomputable def drawGoalSphere (s : MjvScene) (gx gy : ℝ) : MjvScene :=
  if s.ngeom < s.maxgeom then
    { s with geoms := s.geoms ++
        [{ type := GeomType.sphere, size := ⟨0.15, 0.15, 0.15⟩,
           pos := ⟨gx, gy, 0.2⟩, rgba := ⟨1.0, 0.0, 0.0, 0.8⟩, mat := none,
           label := none, category := mjCAT_DECOR }] }
  else s

/-- One append call against the scene buffer, with the arguments of the
    corresponding drawing helper. -/
inductive AppendCall
  | rect (x y width height r g b a : ℝ)
  | line (x1 y1 x2 y2 width r g b a : ℝ)
  | circle (x y radius r g b a : ℝ)
  | lbl (x y z : ℝ) (text : LabelText) (size r g b : ℝ)
  | goalSphere (gx gy : ℝ)

/-- Dispatch one append call to the drawing helper it names. -/
noncomputable def applyCall (s : MjvScene) : AppendCall → MjvScene
  | AppendCall.rect x y w h r g b a => Draw2DRectangle s x y w h r g b a
  | AppendCall.line x1 y1 x2 y2 w r g b a => Draw2DLine s x1 y1 x2 y2 w r g b a
  | AppendCall.circle x y rad r g b a => Draw2DCircle s x y rad r g b a
  | AppendCall.lbl x y z t sz r g b => AddLabel s x y z t sz r g b
  | AppendCall.goalSphere gx gy => drawGoalSphere s gx gy

/-- The geom that an append call writes when the scene has room (read off
    the bodies of the drawing helpers). -/
noncomputable def geomOf : AppendCall → MjvGeom
  | AppendCall.rect x y w h r g b a =>
      { type := GeomType.box, size := ⟨w, h, 0.001⟩, pos := ⟨x, y, 0⟩,
        rgba := ⟨r, g, b, a⟩, mat := some idMat3, label := none,
        category := mjCAT_DECOR }
  | AppendCall.line x1 y1 x2 y2 w r g b a =>
      let dx := x2 - x1
      let dy := y2 - y1
      let length := Real.sqrt (dx * dx + dy * dy)
      let angle := atan2 dy dx
      { type := GeomType.box, size := ⟨length / 2.0, w / 2.0, 0.001⟩,
        pos := ⟨(x1 + x2) / 2.0, (y1 + y2) / 2.0, 0⟩, rgba := ⟨r, g, b, a⟩,
        mat := some ⟨Real.cos angle, -Real.sin angle, 0,
                     Real.sin angle, Real.cos angle, 0, 0, 0, 1⟩,
        label := none, category := mjCAT_DECOR }
  | AppendCall.circle x y rad r g b a =>
      { type := GeomType.ellipsoid, size := ⟨rad, rad, 0.001⟩, pos := ⟨x, y, 0⟩,
        rgba := ⟨r, g, b, a⟩, mat := some idMat3, label := none,
        category := mjCAT_DECOR }
  | AppendCall.lbl x y z t sz r g b =>
      { type := GeomType.labelGeom, size := ⟨sz, sz, sz⟩, pos := ⟨x, y, z⟩,
        rgba := ⟨r, g, b, 1.0⟩, mat := none, label := some t,
        category := mjCAT_DECOR }
  | AppendCall.goalSphere gx gy =>
      { type := GeomType.sphere, size := ⟨0.15, 0.15, 0.15⟩, pos := ⟨gx, gy, 0.2⟩,
        rgba := ⟨1.0, 0.0, 0.0, 0.8⟩, mat := none, label := none,
        category := mjCAT_DECOR }

/-- Pointer ratio of the speedometer (simple_car.cc lines 276-277):
    speed over the 50 km/h full scale, clamped above at 1. -/
noncomputable def speedRatio (d : DashboardData) : ℝ :=
  let r := d.speed_kmh / 50.0
  if r > 1.0 then 1.0 else r

/-- Pointer angle of the speedometer (simple_car.cc line 278). -/
noncomputable def speedPointerAngle (d : DashboardData) : ℝ :=
  speedRatio d * 2.0 * Real.pi - Real.pi / 2.0

/-- Pointer ratio of the tachometer (simple_car.cc lines 363-364). -/
noncomputable def rpmRatio (d : DashboardData) : ℝ :=
  let r := d.rpm / 8000.0
  if r > 1.0 then 1.0 else r

/-- Pointer angle of the tachometer (simple_car.cc line 365). -/
noncomputable def rpmPointerAngle (d : DashboardData) : ℝ :=
  rpmRatio d * 2.0 * Real.pi - Real.pi / 2.0

/-- Tachometer warning-ring intensity (simple_car.cc lines 320-321). -/
noncomputable def tachWarningRatio (d : DashboardData) : ℝ :=
  let r := (d.rpm - 6000.0) / 2000.0
  if r > 1.0 then 1.0 else r

/-- The append calls of SimpleCar::DrawSpeedometer2D (simple_car.cc lines
    219-307), in source order: backdrop disc, two bezel discs, 12 minor
    ticks, 4 major ticks, 6 scale labels, pointer, pointer tail, two hub
    discs, readout, unit and title labels. -/
noncomputable def speedometerCalls (d : DashboardData) (x y size : ℝ) :
    List AppendCall :=
  [AppendCall.circle x y size 0.7 0.7 0.75 0.7,
   AppendCall.circle x y (size * 1.05) 0.4 0.7 1.0 0.6,
   AppendCall.circle x y (size * 0.95) 0.3 0.3 0.4 0.8]
  ++ (List.range 12).map (fun (i : ℕ) =>
      let angle := (i : ℝ) * (2.0 * Real.pi / 12.0)
      AppendCall.line (x + size * 0.8 * Real.cos angle)
        (y + size * 0.8 * Real.sin angle)
        (x + size * 0.9 * Real.cos angle) (y + size * 0.9 * Real.sin angle)
        0.02 0.1 0.1 0.2 0.8)
  ++ (List.range 4).map (fun (i : ℕ) =>
      let angle := (i : ℝ) * (2.0 * Real.pi / 4.0)
      AppendCall.line (x + size * 0.75 * Real.cos angle)
        (y + size * 0.75 * Real.sin angle)
        (x + size * 0.9 * Real.cos angle) (y + size * 0.9 * Real.sin angle)
        0.03 0.0 0.5 1.0 0.9)
  ++ (List.range 6).map (fun (i : ℕ) =>
      let angle := (i : ℝ) * (2.0 * Real.pi / 6.0)
      AppendCall.lbl (x + size * 0.7 * Real.cos (angle - Real.pi / 2.0))
        (y + size * 0.7 * Real.sin (angle - Real.pi / 2.0)) 0.01
        (LabelText.intFmt (i * 10)) 0.1 0.1 0.1 0.9)
  ++ [AppendCall.line x y (x + size * 0.6 * Real.cos (speedPointerAngle d))
        (y + size * 0.6 * Real.sin (speedPointerAngle d)) 0.025 1.0 0.0 0.0 1.0,
      AppendCall.line x y (x - size * 0.2 * Real.cos (speedPointerAngle d) * 0.3)
        (y - size * 0.2 * Real.sin (speedPointerAngle d) * 0.3) 0.02 1.0 0.0 0.0 1.0,
      AppendCall.circle x y (size * 0.06) 0.0 0.0 0.0 1.0,
      AppendCall.circle x y (size * 0.04) 1.0 1.0 1.0 1.0,
      AppendCall.lbl x y 0.02 (LabelText.fix1 d.speed_kmh) 0.15 0.15 0.1 0.9,
      AppendCall.lbl x (y - size * 0.25) 0.02 (LabelText.lit "km/h") 0.08 0.0 0.3 0.8,
      AppendCall.lbl x (y + size * 1.2) 0.02 (LabelText.lit "SPEED") 0.15 0.0 0.5 1.0]

/-- The append calls of SimpleCar::DrawTachometer2D (simple_car.cc lines
    310-399), in source order: backdrop disc, two bezel discs, up to three
    warning rings above 6000 rpm, 12 minor ticks (the tachometer has no
    major-tick loop), 5 scale labels, pointer, pointer tail, two hub discs,
    readout, unit and title labels, and a high-rpm warning label. -/
noncomputable def tachometerCalls (d : DashboardData) (x y size : ℝ) :
    List AppendCall :=
  [AppendCall.circle x y size 0.75 0.75 0.7 0.7,
   AppendCall.circle x y (size * 1.05) 1.0 0.6 0.3 0.6,
   AppendCall.circle x y (size * 0.95) 0.4 0.3 0.2 0.8]
  ++ (if d.rpm > 6000.0 then
      (List.range 3).map (fun (i : ℕ) =>
        let alpha := 0.3 + 0.7 * ((i : ℝ) / 3.0)
        AppendCall.circle x y (size * (0.9 - (i : ℝ) * 0.05)) 1.0 0.3 0.3
          (alpha * tachWarningRatio d))
      else [])
  ++ (List.range 12).map (fun (i : ℕ) =>
      let angle := (i : ℝ) * (2.0 * Real.pi / 12.0)
      AppendCall.line (x + size * 0.8 * Real.cos angle)
        (y + size * 0.8 * Real.sin angle)
        (x + size * 0.9 * Real.cos angle) (y + size * 0.9 * Real.sin angle)
        0.02 0.1 0.1 0.2 0.8)
  ++ (List.range 5).map (fun (i : ℕ) =>
      let angle := (i : ℝ) * (2.0 * Real.pi / 5.0)
      AppendCall.lbl (x + size * 0.7 * Real.cos (angle - Real.pi / 2.0))
        (y + size * 0.7 * Real.sin (angle - Real.pi / 2.0)) 0.01
        (LabelText.intFmt (i * 2)) 0.1 0.1 0.1 0.9)
  ++ [AppendCall.line x y (x + size * 0.6 * Real.cos (rpmPointerAngle d))
        (y + size * 0.6 * Real.sin (rpmPointerAngle d)) 0.025 0.0 1.0 0.0 1.0,
      AppendCall.line x y (x - size * 0.2 * Real.cos (rpmPointerAngle d) * 0.3)
        (y - size * 0.2 * Real.sin (rpmPointerAngle d) * 0.3) 0.02 0.0 1.0 0.0 1.0,
      AppendCall.circle x y (size * 0.06) 0.0 0.0 0.0 1.0,
      AppendCall.circle x y (size * 0.04) 1.0 1.0 1.0 1.0,
      AppendCall.lbl x y 0.02 (LabelText.fix0 d.rpm) 0.15 0.15 0.1 0.9,
      AppendCall.lbl x (y - size * 0.25) 0.02 (LabelText.lit "RPM") 0.08 0.0 0.3 0.8,
      AppendCall.lbl x (y + size * 1.2) 0.02 (LabelText.lit "TACHOMETER") 0.15 1.0 0.5 0.0]
  ++ (if d.rpm > 6000.0 then
      [AppendCall.lbl x (y - size * 1.4) 0.02 (LabelText.lit "HIGH RPM!") 0.12 1.0 0.1 0.1]
      else [])

/-- The append calls of SimpleCar::DrawFuelGauge2D (simple_car.cc lines
    402-462).  The static blink_timer is modelled by the input bt: the C
    code increments it by 0.1 and then tests fmod(timer, 1.0) > 0.5; the
    timer is nonnegative, where fmod(t, 1) = Int.fract t. -/
noncomputable def fuelGaugeCalls (d : DashboardData) (x y width height bt : ℝ) :
    List AppendCall :=
  let fuelWidth := d.fuel / 100.0 * width
  (if fuelWidth > 0.01 then
    let fuelX := x - (width - fuelWidth) / 2.0
    let fuelHeight := height * 0.8
    let colors : ℝ × ℝ × ℝ :=
      if d.fuel > 50.0 then (0.2, 1.0, 0.2)
      else if d.fuel > 20.0 then (1.0, 1.0, 0.2)
      else (1.0, 0.2, 0.2)
    [AppendCall.rect fuelX y fuelWidth fuelHeight colors.1 colors.2.1 colors.2.2 1.0,
     AppendCall.rect fuelX y fuelWidth fuelHeight 0.0 0.0 0.0 0.3]
    ++ (if d.fuel < 20.0 then
        (if Int.fract (bt + 0.1) > 0.5 then
          [AppendCall.rect x y width height 1.0 0.2 0.2 0.3] else [])
        else [])
   else [AppendCall.rect x y width (height * 0.6) 0.3 0.3 0.3 0.5])
  ++ [AppendCall.lbl x (y + height * 0.8) 0.02 (LabelText.fuelPct d.fuel) 0.1 0.1 0.1 1.0]
  ++ (if d.fuel < 20.0 then
      [AppendCall.lbl x (y - height * 0.8) 0.02 (LabelText.lit "LOW FUEL!") 0.12 1.0 0.1 0.1]
      else [])
  ++ (List.range 6).map (fun (i : ℕ) =>
      let markerX := x - width / 2.0 + width / 5.0 * (i : ℝ)
      AppendCall.line markerX (y - height * 0.4) markerX (y - height * 0.2)
        0.02 0.2 0.2 0.3 0.8)

/-- The append calls of SimpleCar::DrawTemperatureGauge2D (simple_car.cc
    lines 465-554).  The static heat_timer is modelled by the input ht
    (the C code increments it by 0.05 and then evaluates the pulse alpha). -/
noncomputable def temperatureGaugeCalls (d : DashboardData)
    (x y width height ht : ℝ) : List AppendCall :=
  let tempRatio0 := (d.temperature - 60.0) / (120.0 - 60.0)
  let tempRatio1 := if tempRatio0 < 0.0 then 0.0 else tempRatio0
  let tempRatio := if tempRatio1 > 1.0 then 1.0 else tempRatio1
  let tempWidth := tempRatio * width
  (if tempWidth > 0.01 then
    let tempX := x - (width - tempWidth) / 2.0
    let tempHeight := height * 0.8
    let colors : ℝ × ℝ × ℝ :=
      if tempRatio < 0.5 then
        let t := tempRatio / 0.5
        (0.3 * (1.0 - t), 0.5 + 0.5 * t, 1.0 * (1.0 - t))
      else if tempRatio < 0.8 then
        let t := (tempRatio - 0.5) / 0.3
        (0.3 + 0.7 * t, 1.0 * (1.0 - 0.2 * t), 0.5 * (1.0 - t))
      else
        let t := (tempRatio - 0.8) / 0.2
        (1.0, 0.8 * (1.0 - t), 0.2 * (1.0 - t))
    [AppendCall.rect tempX y tempWidth tempHeight colors.1 colors.2.1 colors.2.2 1.0,
     AppendCall.rect tempX y tempWidth tempHeight 0.0 0.0 0.0 0.3]
    ++ (if d.temperature > 100.0 then
        [AppendCall.rect x y width height 1.0 0.3 0.3
          (0.3 + 0.3 * Real.sin ((ht + 0.05) * 5.0))] else [])
   else [AppendCall.rect x y width (height * 0.6) 0.3 0.3 0.3 0.5])
  ++ [AppendCall.lbl x (y + height * 0.8) 0.02 (LabelText.tempC d.temperature) 0.1 0.1 0.1 1.0]
  ++ (if d.temperature > 100.0 then
      [AppendCall.lbl x (y - height * 0.8) 0.02 (LabelText.lit "OVERHEAT!") 0.12 1.0 0.1 0.1]
      else [])
  ++ (List.range 6).map (fun (i : ℕ) =>
      let markerX := x - width / 2.0 + width / 5.0 * (i : ℝ)
      AppendCall.line markerX (y - height * 0.4) markerX (y - height * 0.2)
        0.02 0.2 0.2 0.3 0.8)
  ++ (let markerRatio := (d.temperature - 60.0) / (120.0 - 60.0)
      if 0.0 ≤ markerRatio ∧ markerRatio ≤ 1.0 then
        let markerX := x - width / 2.0 + width * markerRatio
        [AppendCall.line markerX (y - height * 0.4) (markerX - 0.05)
           (y - height * 0.2) 0.03 0.0 0.0 0.0 0.8,
         AppendCall.line markerX (y - height * 0.4) (markerX + 0.05)
           (y - height * 0.2) 0.03 0.0 0.0 0.0 0.8]
      else [])

/-- The parts of mjData that SimpleCar reads and writes: planar position
    qpos[0..1], planar velocity qvel[0..1], the goal mocap_pos, and time. -/
structure MjData where
  qpos : ℝ × ℝ
  qvel : ℝ × ℝ
  mocap_pos : Vec3
  time : ℝ

/-- SimpleCar::TransitionLocked (simple_car.cc lines 86-107).  The two
    absl::Uniform(gen, -2.0, 2.0) draws are modelled by the oracle inputs
    r1 and r2 (the random source, made explicit).  Returns the updated
    dashboard and the updated mjData. -/
noncomputable def TransitionLocked (d : DashboardData) (data : MjData)
    (r1 r2 : ℝ) : DashboardData × MjData :=
  let dx := data.mocap_pos.x - data.qpos.1
  let dy := data.mocap_pos.y - data.qpos.2
  let dist := Real.sqrt (dx * dx + dy * dy)
  let data' := if dist < 0.2 then { data with mocap_pos := ⟨r1, r2, 0.01⟩ }
               else data
  (UpdateDashboardData d data'.qvel.1 data'.qvel.2 data'.time, data')

/-- The append calls of SimpleCar::ModifyScene (simple_car.cc lines 583-635),
    after the validity guard: title label, the four gauges at their fixed
    screen-relative anchors, the goal-marker sphere, the car-position label
    when the body lookup succeeds (carBody is its world position, none when
    mj_name2id fails), and the goal-position label. -/
noncomputable def ModifySceneCalls (d : DashboardData) (data : MjData)
    (carBody : Option Vec3) (bt ht : ℝ) : List AppendCall :=
  let screenCenterX := (0.0 : ℝ)
  let screenTop := (3.0 : ℝ)
  [AppendCall.lbl screenCenterX (screenTop - 0.5) 0.5
     (LabelText.lit "CAR DASHBOARD") 0.25 0.0 0.5 1.0]
  ++ speedometerCalls d (screenCenterX - 2.5) (screenTop - 2.0) 0.8
  ++ tachometerCalls d (screenCenterX + 2.5) (screenTop - 2.0) 0.8
  ++ fuelGaugeCalls d (screenCenterX - 2.5) (screenTop - 3.5) 1.5 0.4 bt
  ++ temperatureGaugeCalls d (screenCenterX + 2.5) (screenTop - 3.5) 1.5 0.4 ht
  ++ [AppendCall.goalSphere data.mocap_pos.x data.mocap_pos.y]
  ++ (match carBody with
      | some p => [AppendCall.lbl p.x p.y (p.z + 2.0) (LabelText.carPos p.x p.y)
          0.1 0.0 1.0 0.0]
      | none => [])
  ++ [AppendCall.lbl data.mocap_pos.x data.mocap_pos.y 0.5
        (LabelText.goalPos data.mocap_pos.x data.mocap_pos.y) 0.1 1.0 0.0 0.0]

/-- SimpleCar::ModifyScene (simple_car.cc lines 578-636).  A null scene
    handle is modelled as none; the guard skips the whole pass when the
    handle is null or maxgeom is 0, otherwise the append calls are played
    against the scene in order. -/
noncomputable def ModifyScene (d : DashboardData) (data : MjData)
    (carBody : Option Vec3) (bt ht : ℝ) : Option MjvScene → Option MjvScene
  | none => none
  | some s =>
      if s.maxgeom = 0 then some s
      else some ((ModifySceneCalls d data carBody bt ht).foldl applyCall s)

/-- Repeated telemetry updates: one UpdateDashboardData call per entry of
    `inputs`, each entry giving (vx, vy, time). -/
noncomputable def runUpdates (inputs : List (ℝ × ℝ × ℝ)) (d : DashboardData) :
    DashboardData :=
  inputs.foldl (fun d v => UpdateDashboardData d v.1 v.2.1 v.2.2) d

/-- Capacity-guarded append: applyCall either appends exactly the geom of
    the call (when there is room) or is the identity. -/
lemma applyCall_eq (s : MjvScene) (c : AppendCall) :
    applyCall s c =
      if s.ngeom < s.maxgeom then { s with geoms := s.geoms ++ [geomOf c] }
      else s := by
  cases c <;>
    simp only [applyCall, Draw2DRectangle, Draw2DLine, Draw2DCircle, AddLabel,
      drawGoalSphere, geomOf] <;>
    split_ifs with h1 h2 <;> first | rfl | (exfalso; omega)

/-- Folding any sequence of append calls over a scene whose count is within
    capacity keeps the capacity and retains exactly the first
    (capacity - count) new geoms, in call order. -/
lemma foldl_applyCall (L : List AppendCall) (s : MjvScene)
    (h : s.geoms.length ≤ s.maxgeom) :
    (L.foldl applyCall s).maxgeom = s.maxgeom ∧
    (L.foldl applyCall s).geoms =
      s.geoms ++ (L.map geomOf).take (s.maxgeom - s.geoms.length) := by
  induction L generalizing s with
  | nil => simp
  | cons c L ih =>
      rw [List.foldl_cons, applyCall_eq]
      simp only [MjvScene.ngeom]
      by_cases hlt : s.geoms.length < s.maxgeom
      · rw [if_pos hlt]
        obtain ⟨h1, h2⟩ := ih { s with geoms := s.geoms ++ [geomOf c] }
          (by simpa using hlt)
        refine ⟨by simpa using h1, ?_⟩
        rw [h2]
        simp only [List.map_cons]
        have hsub : s.maxgeom - s.geoms.length =
            (s.maxgeom - (s.geoms.length + 1)) + 1 := by omega
        rw [hsub, List.take_succ_cons]
        simp
      · rw [if_neg hlt]
        have h0 : s.maxgeom - s.geoms.length = 0 := by omega
        obtain ⟨h1, h2⟩ := ih s h
        rw [h0] at h2
        exact ⟨h1, by rw [h2, h0]; simp⟩

/-- C1: for every sequence of append calls against a scene within capacity,
    an append with no room is a no-op leaving the scene unchanged, the count
    ngeom never exceeds maxgeom, and exactly the first (capacity - count)
    primitives of the call sequence are retained in call order. -/
theorem appendSequence_capacity (s : MjvScene) (L : List AppendCall)
    (h : s.geoms.length ≤ s.maxgeom) :
    (∀ c : AppendCall, ¬ s.geoms.length < s.maxgeom → applyCall s c = s) ∧
    (L.foldl applyCall s).maxgeom = s.maxgeom ∧
    (L.foldl applyCall s).geoms =
      s.geoms ++ (L.map geomOf).take (s.maxgeom - s.geoms.length) ∧
    (L.foldl applyCall s).ngeom ≤ s.maxgeom := by
  obtain ⟨h1, h2⟩ := foldl_applyCall L s h
  refine ⟨?_, h1, h2, ?_⟩
  · intro c hc
    rw [applyCall_eq]
    simp only [MjvScene.ngeom]
    rw [if_neg hc]
  · simp only [MjvScene.ngeom, h2, List.length_append, List.length_take]
    omega

/-- Witness for C1 at a concrete scene of capacity 1 and two append calls. -/
theorem appendSequence_capacity_witness :
    ([AppendCall.rect 0 0 1 1 0 0 0 1,
      AppendCall.circle 0 0 1 0 0 0 1].foldl applyCall
        (MjvScene.mk 1 [])).ngeom ≤ 1 :=
  (appendSequence_capacity (MjvScene.mk 1 [])
    [AppendCall.rect 0 0 1 1 0 0 0 1, AppendCall.circle 0 0 1 0 0 0 1]
    (by simp)).2.2.2

/-- Range facts about a single telemetry update from a state whose fuel
    reserve is within [0, 100]. -/
lemma update_ranges (d : DashboardData) (vx vy t : ℝ)
    (h0 : 0 ≤ d.simulated_fuel) (h1 : d.simulated_fuel ≤ 100) :
    0 ≤ (UpdateDashboardData d vx vy t).speed_kmh ∧
    800 ≤ (UpdateDashboardData d vx vy t).rpm ∧
    (UpdateDashboardData d vx vy t).rpm ≤ 8000 ∧
    60 ≤ (UpdateDashboardData d vx vy t).temperature ∧
    (UpdateDashboardData d vx vy t).temperature ≤ 120 ∧
    0 ≤ (UpdateDashboardData d vx vy t).fuel ∧
    (UpdateDashboardData d vx vy t).fuel ≤ 100 ∧
    (UpdateDashboardData d vx vy t).simulated_fuel =
      (UpdateDashboardData d vx vy t).fuel := by
  have hs : (0:ℝ) ≤ Real.sqrt (vx * vx + vy * vy) := Real.sqrt_nonneg _
  simp only [UpdateDashboardData]
  refine ⟨by positivity, ?_, ?_, ?_, ?_, ?_, ?_, by trivial⟩ <;>
    split_ifs <;> nlinarith [hs]

/-- The fuel-reserve invariant 0 ≤ simulated_fuel ≤ 100 is preserved by any
    run of telemetry updates, and after at least one update all derived
    fields are in their stated ranges. -/
lemma runUpdates_inv (inputs : List (ℝ × ℝ × ℝ)) (d : DashboardData)
    (h0 : 0 ≤ d.simulated_fuel) (h1 : d.simulated_fuel ≤ 100) :
    0 ≤ (runUpdates inputs d).simulated_fuel ∧
    (runUpdates inputs d).simulated_fuel ≤ 100 ∧
    (inputs ≠ [] →
      0 ≤ (runUpdates inputs d).speed_kmh ∧
      800 ≤ (runUpdates inputs d).rpm ∧ (runUpdates inputs d).rpm ≤ 8000 ∧
      60 ≤ (runUpdates inputs d).temperature ∧
      (runUpdates inputs d).temperature ≤ 120 ∧
      0 ≤ (runUpdates inputs d).fuel ∧ (runUpdates inputs d).fuel ≤ 100) := by
  induction inputs generalizing d with
  | nil => exact ⟨by simpa [runUpdates] using h0, by simpa [runUpdates] using h1,
      fun h => absurd rfl h⟩
  | cons v L ih =>
      have hstep : runUpdates (v :: L) d =
          runUpdates L (UpdateDashboardData d v.1 v.2.1 v.2.2) := by
        simp [runUpdates]
      rw [hstep]
      obtain ⟨hsp, hr1, hr2, ht1, ht2, hf1, hf2, hsf⟩ :=
        update_ranges d v.1 v.2.1 v.2.2 h0 h1
      have h0' : 0 ≤ (UpdateDashboardData d v.1 v.2.1 v.2.2).simulated_fuel := by
        rw [hsf]; exact hf1
      have h1' : (UpdateDashboardData d v.1 v.2.1 v.2.2).simulated_fuel ≤ 100 := by
        rw [hsf]; exact hf2
      obtain ⟨ia, ib, ic⟩ := ih _ h0' h1'
      refine ⟨ia, ib, fun _ => ?_⟩
      cases L with
      | nil =>
          simpa [runUpdates] using ⟨hsp, hr1, hr2, ht1, ht2, hf1, hf2⟩
      | cons w M => exact ic (by simp)

/-- C2: after every telemetry update (any nonempty run of UpdateDashboardData
    calls from the initial dashboard state, with arbitrary, possibly extreme
    or negative velocities), speed_kmh is nonnegative, rpm lies in
    [800, 8000], temperature lies in [60, 120], and fuel lies in [0, 100]. -/
theorem updateDashboard_ranges (inputs : List (ℝ × ℝ × ℝ))
    (hne : inputs ≠ []) :
    0 ≤ (runUpdates inputs initDashboard).speed_kmh ∧
    800 ≤ (runUpdates inputs initDashboard).rpm ∧
    (runUpdates inputs initDashboard).rpm ≤ 8000 ∧
    60 ≤ (runUpdates inputs initDashboard).temperature ∧
    (runUpdates inputs initDashboard).temperature ≤ 120 ∧
    0 ≤ (runUpdates inputs initDashboard).fuel ∧
    (runUpdates inputs initDashboard).fuel ≤ 100 :=
  (runUpdates_inv inputs initDashboard (by norm_num [initDashboard])
    (by norm_num [initDashboard])).2.2 hne

/-- Witness for C2 at one update with velocity (-1000, 3). -/
theorem updateDashboard_ranges_witness :
    0 ≤ (runUpdates [(-1000, 3, 0)] initDashboard).speed_kmh ∧
    800 ≤ (runUpdates [(-1000, 3, 0)] initDashboard).rpm ∧
    (runUpdates [(-1000, 3, 0)] initDashboard).rpm ≤ 8000 ∧
    60 ≤ (runUpdates [(-1000, 3, 0)] initDashboard).temperature ∧
    (runUpdates [(-1000, 3, 0)] initDashboard).temperature ≤ 120 ∧
    0 ≤ (runUpdates [(-1000, 3, 0)] initDashboard).fuel ∧
    (runUpdates [(-1000, 3, 0)] initDashboard).fuel ≤ 100 :=
  updateDashboard_ranges [(-1000, 3, 0)] (by simp)

/-- The fuel update law of one telemetry update, read off UpdateDashboardData. -/
lemma update_fuel_law (d : DashboardData) (vx vy t : ℝ) :
    (UpdateDashboardData d vx vy t).simulated_fuel =
      (if d.simulated_fuel - 0.001 < 0.0 then (100.0:ℝ)
       else d.simulated_fuel - 0.001) ∧
    (UpdateDashboardData d vx vy t).fuel =
      (UpdateDashboardData d vx vy t).simulated_fuel :=
  ⟨rfl, rfl⟩

/-- Closed form of the fuel reserve along the depletion run: after n calls
    (n ≤ 100000) from the initial full tank it is 100 - n/1000. -/
lemma fuel_closed_form (n : ℕ) (hn : n ≤ 100000) :
    (fuelStep^[n] initDashboard).simulated_fuel = 100 - (n : ℝ) / 1000 := by
  induction n with
  | zero => simp [initDashboard]
  | succ m ih =>
      have hm : m ≤ 100000 := by omega
      have hm9 : (m : ℝ) ≤ 99999 := by exact_mod_cast (by omega : m ≤ 99999)
      rw [Function.iterate_succ_apply']
      have hlaw := (update_fuel_law (fuelStep^[m] initDashboard) 0 0 0).1
      rw [show fuelStep (fuelStep^[m] initDashboard) =
            UpdateDashboardData (fuelStep^[m] initDashboard) 0 0 0 from rfl,
          hlaw, ih hm]
      have hpos : ¬ (100 - (m : ℝ) / 1000 - 0.001 < 0.0) := by
        norm_num
        linarith
      rw [if_neg hpos]
      push_cast
      ring

/-- C4: every telemetry update decreases simulated_fuel by exactly 0.001
    unless the result would be negative, in which case it is reset to exactly
    100 on that same update, and fuel always equals simulated_fuel; starting
    from the initial full tank, at every call k ≤ 100001 the wraparound
    (reset branch) fires exactly when k = 100001, and after call 100001 the
    reserve is exactly 100 again. -/
theorem fuel_wraparound :
    (∀ (d : DashboardData) (vx vy t : ℝ),
      (UpdateDashboardData d vx vy t).simulated_fuel =
        (if d.simulated_fuel - 0.001 < 0.0 then (100.0:ℝ)
         else d.simulated_fuel - 0.001) ∧
      (UpdateDashboardData d vx vy t).fuel =
        (UpdateDashboardData d vx vy t).simulated_fuel) ∧
    (∀ n : ℕ, n ≤ 100000 →
      (fuelStep^[n] initDashboard).simulated_fuel = 100 - (n : ℝ) / 1000) ∧
    (fuelStep^[100001] initDashboard).simulated_fuel = 100 ∧
    (∀ k : ℕ, 1 ≤ k → k ≤ 100001 →
      ((fuelStep^[k - 1] initDashboard).simulated_fuel - 0.001 < 0 ↔
        k = 100001)) := by
  refine ⟨update_fuel_law, fuel_closed_form, ?_, ?_⟩
  · have h0 := fuel_closed_form 100000 le_rfl
    rw [show (100001 : ℕ) = 100000 + 1 from rfl, Function.iterate_succ_apply']
    have hlaw := (update_fuel_law (fuelStep^[100000] initDashboard) 0 0 0).1
    rw [show fuelStep (fuelStep^[100000] initDashboard) =
          UpdateDashboardData (fuelStep^[100000] initDashboard) 0 0 0 from rfl,
        hlaw, h0]
    norm_num
  · intro k hk1 hk2
    rw [fuel_closed_form (k - 1) (by omega)]
    constructor
    · intro hlt
      by_contra hne
      have hk9 : ((k - 1 : ℕ) : ℝ) ≤ 99999 := by
        exact_mod_cast (by omega : k - 1 ≤ 99999)
      linarith
    · intro hk
      subst hk
      norm_num

/-- Witness for C4: after one update from full tank the reserve is
    100 - 1/1000. -/
theorem fuel_wraparound_witness :
    (fuelStep^[1] initDashboard).simulated_fuel = 100 - ((1:ℕ) : ℝ) / 1000 :=
  fuel_wraparound.2.1 1 (by norm_num)

/-- C3: one telemetry update with planar velocity (10, 0) yields exactly
    speed_kmh = 36, rpm = 2240, temperature = 76.8; the speedometer pointer
    ratio is 36/50 = 0.72 with pointer angle 0.72·2π - π/2, and the
    speedometer trace contains the pointer line drawn at that angle. -/
theorem endToEnd_velocity10 :
    (UpdateDashboardData initDashboard 10 0 0).speed_kmh = 36 ∧
    (UpdateDashboardData initDashboard 10 0 0).rpm = 2240 ∧
    (UpdateDashboardData initDashboard 10 0 0).temperature = 76.8 ∧
    speedRatio (UpdateDashboardData initDashboard 10 0 0) = 0.72 ∧
    speedPointerAngle (UpdateDashboardData initDashboard 10 0 0) =
      0.72 * (2 * Real.pi) - Real.pi / 2 ∧
    AppendCall.line 0 0
      (0 + 1 * 0.6 * Real.cos (speedPointerAngle (UpdateDashboardData initDashboard 10 0 0)))
      (0 + 1 * 0.6 * Real.sin (speedPointerAngle (UpdateDashboardData initDashboard 10 0 0)))
      0.025 1.0 0.0 0.0 1.0
      ∈ speedometerCalls (UpdateDashboardData initDashboard 10 0 0) 0 0 1 := by
  have hsqrt : Real.sqrt 100 = 10 := by
    rw [show (100 : ℝ) = 10 ^ 2 by norm_num]
    exact Real.sqrt_sq (by norm_num)
  have hspeed : (UpdateDashboardData initDashboard 10 0 0).speed_kmh = 36 := by
    norm_num [UpdateDashboardData, hsqrt]
  have hrpm : (UpdateDashboardData initDashboard 10 0 0).rpm = 2240 := by
    norm_num [UpdateDashboardData, hsqrt]
  have htemp : (UpdateDashboardData initDashboard 10 0 0).temperature = 76.8 := by
    norm_num [UpdateDashboardData, hsqrt]
  have hratio : speedRatio (UpdateDashboardData initDashboard 10 0 0) = 0.72 := by
    rw [speedRatio, hspeed]
    norm_num
  have hangle : speedPointerAngle (UpdateDashboardData initDashboard 10 0 0) =
      0.72 * (2 * Real.pi) - Real.pi / 2 := by
    rw [speedPointerAngle, hratio]
    ring
  refine ⟨hspeed, hrpm, htemp, hratio, hangle, ?_⟩
  simp [speedometerCalls]

/-- C5: on every step transition, if the planar distance from the car to
    the goal is below 0.2 the goal is redrawn at the injected random draws
    (each within [-2, 2]) with z fixed at the ground height 0.01; otherwise
    the simulation data (and in particular the goal) is unchanged; in both
    cases the dashboard is updated with the current velocity and time. -/
theorem transition_goal_relocation (d : DashboardData) (data : MjData)
    (r1 r2 : ℝ) (h1 : -2 ≤ r1) (h2 : r1 ≤ 2) (h3 : -2 ≤ r2) (h4 : r2 ≤ 2) :
    (Real.sqrt ((data.mocap_pos.x - data.qpos.1) * (data.mocap_pos.x - data.qpos.1) +
        (data.mocap_pos.y - data.qpos.2) * (data.mocap_pos.y - data.qpos.2)) < 0.2 →
      (TransitionLocked d data r1 r2).2.mocap_pos = Vec3.mk r1 r2 0.01 ∧
      -2 ≤ (TransitionLocked d data r1 r2).2.mocap_pos.x ∧
      (TransitionLocked d data r1 r2).2.mocap_pos.x ≤ 2 ∧
      -2 ≤ (TransitionLocked d data r1 r2).2.mocap_pos.y ∧
      (TransitionLocked d data r1 r2).2.mocap_pos.y ≤ 2 ∧
      (TransitionLocked d data r1 r2).2.mocap_pos.z = 0.01) ∧
    (¬ Real.sqrt ((data.mocap_pos.x - data.qpos.1) * (data.mocap_pos.x - data.qpos.1) +
        (data.mocap_pos.y - data.qpos.2) * (data.mocap_pos.y - data.qpos.2)) < 0.2 →
      (TransitionLocked d data r1 r2).2 = data) ∧
    (TransitionLocked d data r1 r2).1 =
      UpdateDashboardData d data.qvel.1 data.qvel.2 data.time := by
  refine ⟨?_, ?_, ?_⟩
  · intro hlt
    simp only [TransitionLocked]
    rw [if_pos hlt]
    exact ⟨rfl, h1, h2, h3, h4, rfl⟩
  · intro hge
    simp only [TransitionLocked]
    rw [if_neg hge]
  · simp only [TransitionLocked]
    split_ifs with h <;> rfl

/-- Witness for C5 at a concrete state within tolerance of the goal. -/
theorem transition_goal_relocation_witness :
    (TransitionLocked initDashboard
      (MjData.mk (0, 0) (0, 0) (Vec3.mk 0.1 0 0.5) 0) 1 (-1)).2.mocap_pos =
      Vec3.mk 1 (-1) 0.01 := by
  have h := transition_goal_relocation initDashboard
    (MjData.mk (0, 0) (0, 0) (Vec3.mk 0.1 0 0.5) 0) 1 (-1)
    (by norm_num) (by norm_num) (by norm_num) (by norm_num)
  refine (h.1 ?_).1
  show Real.sqrt (((0.1:ℝ) - 0) * ((0.1:ℝ) - 0) + ((0:ℝ) - 0) * ((0:ℝ) - 0)) < 0.2
  rw [show (((0.1:ℝ) - 0) * ((0.1:ℝ) - 0) + ((0:ℝ) - 0) * ((0:ℝ) - 0)) = 0.1 ^ 2
      by norm_num]
  rw [Real.sqrt_sq (by norm_num)]
  norm_num

/-- C9: goal relocation is deterministic given a fixed random source: two
    step transitions from equal states supplied equal random draws produce
    equal results (same relocated goal, same dashboard). -/
theorem transition_deterministic (d1 d2 : DashboardData) (data1 data2 : MjData)
    (r1 r2 s1 s2 : ℝ) (hd : d1 = d2) (hdata : data1 = data2) (ha : r1 = s1)
    (hb : r2 = s2) :
    TransitionLocked d1 data1 r1 r2 = TransitionLocked d2 data2 s1 s2 := by
  subst hd
  subst hdata
  subst ha
  subst hb
  rfl

/-- Witness for C9 at a concrete state and draw pair. -/
theorem transition_deterministic_witness :
    TransitionLocked initDashboard
      (MjData.mk (0, 0) (0, 0) (Vec3.mk 0 0 0.01) 0) 0.5 0.5 =
    TransitionLocked initDashboard
      (MjData.mk (0, 0) (0, 0) (Vec3.mk 0 0 0.01) 0) 0.5 0.5 :=
  transition_deterministic initDashboard initDashboard
    (MjData.mk (0, 0) (0, 0) (Vec3.mk 0 0 0.01) 0)
    (MjData.mk (0, 0) (0, 0) (Vec3.mk 0 0 0.01) 0) 0.5 0.5 0.5 0.5
    rfl rfl rfl rfl

/-- The rotation angle emitted by Draw2DLine maps the box's local +x axis,
    scaled by the segment length, exactly onto the direction vector. -/
lemma len_cos_sin_atan2 (dx dy : ℝ) :
    Real.sqrt (dx * dx + dy * dy) * Real.cos (atan2 dy dx) = dx ∧
    Real.sqrt (dx * dx + dy * dy) * Real.sin (atan2 dy dx) = dy := by
  by_cases hz : (⟨dx, dy⟩ : ℂ) = 0
  · have h1 : dx = 0 := by
      have := congrArg Complex.re hz
      simpa using this
    have h2 : dy = 0 := by
      have := congrArg Complex.im hz
      simpa using this
    subst h1
    subst h2
    norm_num [atan2]
  · have habs : Complex.abs ⟨dx, dy⟩ = Real.sqrt (dx * dx + dy * dy) := by
      rw [Complex.abs_apply, Complex.normSq_mk]
    have hne : Complex.abs ⟨dx, dy⟩ ≠ 0 := Complex.abs.ne_zero hz
    constructor
    · have hc := Complex.cos_arg hz
      rw [atan2, hc, ← habs]
      field_simp
    · have hs := Complex.sin_arg (⟨dx, dy⟩ : ℂ)
      rw [atan2, hs, ← habs]
      field_simp

/-- C6: a line append with room emits exactly one geom, the geom of the
    line call: a box with half-length sqrt(dx² + dy²)/2, half-width width/2,
    centered at the segment midpoint, carrying the rotation by
    atan2(dy, dx) about the vertical axis; that rotation scaled by the
    length maps local +x exactly onto (x2 - x1, y2 - y1), and the two
    endpoints are recovered exactly from the emitted center, half-length
    and angle. -/
theorem line_emission_roundtrip (s : MjvScene) (x1 y1 x2 y2 w r g b a : ℝ)
    (h : s.geoms.length < s.maxgeom) :
    (Draw2DLine s x1 y1 x2 y2 w r g b a).geoms =
      s.geoms ++ [geomOf (AppendCall.line x1 y1 x2 y2 w r g b a)] ∧
    (geomOf (AppendCall.line x1 y1 x2 y2 w r g b a)).size =
      Vec3.mk (Real.sqrt ((x2 - x1) * (x2 - x1) + (y2 - y1) * (y2 - y1)) / 2.0)
        (w / 2.0) 0.001 ∧
    (geomOf (AppendCall.line x1 y1 x2 y2 w r g b a)).pos =
      Vec3.mk ((x1 + x2) / 2.0) ((y1 + y2) / 2.0) 0 ∧
    (geomOf (AppendCall.line x1 y1 x2 y2 w r g b a)).mat =
      some (Mat3.mk (Real.cos (atan2 (y2 - y1) (x2 - x1)))
        (-Real.sin (atan2 (y2 - y1) (x2 - x1))) 0
        (Real.sin (atan2 (y2 - y1) (x2 - x1)))
        (Real.cos (atan2 (y2 - y1) (x2 - x1))) 0 0 0 1) ∧
    Real.sqrt ((x2 - x1) * (x2 - x1) + (y2 - y1) * (y2 - y1)) *
      Real.cos (atan2 (y2 - y1) (x2 - x1)) = x2 - x1 ∧
    Real.sqrt ((x2 - x1) * (x2 - x1) + (y2 - y1) * (y2 - y1)) *
      Real.sin (atan2 (y2 - y1) (x2 - x1)) = y2 - y1 ∧
    (x1 + x2) / 2.0 +
      Real.sqrt ((x2 - x1) * (x2 - x1) + (y2 - y1) * (y2 - y1)) / 2.0 *
        Real.cos (atan2 (y2 - y1) (x2 - x1)) = x2 ∧
    (y1 + y2) / 2.0 +
      Real.sqrt ((x2 - x1) * (x2 - x1) + (y2 - y1) * (y2 - y1)) / 2.0 *
        Real.sin (atan2 (y2 - y1) (x2 - x1)) = y2 ∧
    (x1 + x2) / 2.0 -
      Real.sqrt ((x2 - x1) * (x2 - x1) + (y2 - y1) * (y2 - y1)) / 2.0 *
        Real.cos (atan2 (y2 - y1) (x2 - x1)) = x1 ∧
    (y1 + y2) / 2.0 -
      Real.sqrt ((x2 - x1) * (x2 - x1) + (y2 - y1) * (y2 - y1)) / 2.0 *
        Real.sin (atan2 (y2 - y1) (x2 - x1)) = y1 := by
  obtain ⟨hcos, hsin⟩ := len_cos_sin_atan2 (x2 - x1) (y2 - y1)
  refine ⟨?_, rfl, rfl, rfl, hcos, hsin, by linarith, by linarith, by linarith,
    by linarith⟩
  rw [show Draw2DLine s x1 y1 x2 y2 w r g b a =
      applyCall s (AppendCall.line x1 y1 x2 y2 w r g b a) from rfl,
    applyCall_eq]
  simp only [MjvScene.ngeom]
  rw [if_pos h]

/-- Witness for C6 on the segment (0,0) to (3,4) in a scene of capacity 1. -/
theorem line_emission_roundtrip_witness :
    Real.sqrt ((3 - 0) * (3 - 0) + (4 - 0) * (4 - 0)) *
      Real.cos (atan2 (4 - 0) (3 - 0)) = 3 - 0 :=
  (line_emission_roundtrip (MjvScene.mk 1 []) 0 0 3 4 1 0 0 0 1
    (by simp)).2.2.2.2.1

/-- C7 counterexample: the tachometer trace contains no major tick: at
    index 0 the claimed major tick would be the line from radius fraction
    0.75 to 0.9 at angle 0, and no line with those endpoints occurs in the
    tachometer's calls (checked at center (0,0), size 1, for the initial
    dashboard state). -/
theorem tachometer_no_major_ticks :
    ¬ (∀ i : ℕ, i < 4 →
      ∃ w r g b a : ℝ,
        AppendCall.line (0 + 1 * 0.75 * Real.cos ((i : ℝ) * (2.0 * Real.pi / 4.0)))
          (0 + 1 * 0.75 * Real.sin ((i : ℝ) * (2.0 * Real.pi / 4.0)))
          (0 + 1 * 0.9 * Real.cos ((i : ℝ) * (2.0 * Real.pi / 4.0)))
          (0 + 1 * 0.9 * Real.sin ((i : ℝ) * (2.0 * Real.pi / 4.0))) w r g b a
          ∈ tachometerCalls initDashboard 0 0 1) := by
  intro hclaim
  obtain ⟨w, r, g, b, a, hmem⟩ := hclaim 0 (by norm_num)
  norm_num [tachometerCalls, initDashboard, rpmRatio, rpmPointerAngle,
    List.mem_append, List.mem_map, List.mem_range] at hmem
  rcases hmem with h | h | h | ⟨i, hi, h1, h2, h3, -⟩ | ⟨i, hi, h⟩ | h | h | h | h | h
  · exact AppendCall.noConfusion h
  · exact AppendCall.noConfusion h
  · exact AppendCall.noConfusion h
  · rw [h3] at h1
    norm_num at h1
  · exact AppendCall.noConfusion h
  · exact AppendCall.noConfusion h
  · exact AppendCall.noConfusion h
  · exact AppendCall.noConfusion h
  · exact AppendCall.noConfusion h
  · exact AppendCall.noConfusion h

/-- C7 amended: the speedometer draws 12 minor ticks at angles i·30° from
    radius fraction 0.8 to 0.9 and 4 major ticks at angles i·90° from 0.75
    to 0.9; the tachometer draws only the 12 minor ticks (it has no
    major-tick loop). -/
theorem gauge_tick_marks (d : DashboardData) (x y size : ℝ) :
    (∀ i : ℕ, i < 12 →
      AppendCall.line (x + size * 0.8 * Real.cos ((i : ℝ) * (2.0 * Real.pi / 12.0)))
        (y + size * 0.8 * Real.sin ((i : ℝ) * (2.0 * Real.pi / 12.0)))
        (x + size * 0.9 * Real.cos ((i : ℝ) * (2.0 * Real.pi / 12.0)))
        (y + size * 0.9 * Real.sin ((i : ℝ) * (2.0 * Real.pi / 12.0)))
        0.02 0.1 0.1 0.2 0.8 ∈ speedometerCalls d x y size) ∧
    (∀ i : ℕ, i < 4 →
      AppendCall.line (x + size * 0.75 * Real.cos ((i : ℝ) * (2.0 * Real.pi / 4.0)))
        (y + size * 0.75 * Real.sin ((i : ℝ) * (2.0 * Real.pi / 4.0)))
        (x + size * 0.9 * Real.cos ((i : ℝ) * (2.0 * Real.pi / 4.0)))
        (y + size * 0.9 * Real.sin ((i : ℝ) * (2.0 * Real.pi / 4.0)))
        0.03 0.0 0.5 1.0 0.9 ∈ speedometerCalls d x y size) ∧
    (∀ i : ℕ, i < 12 →
      AppendCall.line (x + size * 0.8 * Real.cos ((i : ℝ) * (2.0 * Real.pi / 12.0)))
        (y + size * 0.8 * Real.sin ((i : ℝ) * (2.0 * Real.pi / 12.0)))
        (x + size * 0.9 * Real.cos ((i : ℝ) * (2.0 * Real.pi / 12.0)))
        (y + size * 0.9 * Real.sin ((i : ℝ) * (2.0 * Real.pi / 12.0)))
        0.02 0.1 0.1 0.2 0.8 ∈ tachometerCalls d x y size) := by
  refine ⟨fun i hi => ?_, fun i hi => ?_, fun i hi => ?_⟩
  · simp only [speedometerCalls, List.mem_append, List.mem_map, List.mem_range]
    exact Or.inl (Or.inl (Or.inl (Or.inr ⟨i, hi, rfl⟩)))
  · simp only [speedometerCalls, List.mem_append, List.mem_map, List.mem_range]
    exact Or.inl (Or.inl (Or.inr ⟨i, hi, rfl⟩))
  · simp only [tachometerCalls, List.mem_append, List.mem_map, List.mem_range]
    exact Or.inl (Or.inl (Or.inl (Or.inr ⟨i, hi, rfl⟩)))

/-- Witness for the amended C7 at index 0, center (0,0), size 1. -/
theorem gauge_tick_marks_witness :
    AppendCall.line (0 + 1 * 0.75 * Real.cos (((0:ℕ) : ℝ) * (2.0 * Real.pi / 4.0)))
      (0 + 1 * 0.75 * Real.sin (((0:ℕ) : ℝ) * (2.0 * Real.pi / 4.0)))
      (0 + 1 * 0.9 * Real.cos (((0:ℕ) : ℝ) * (2.0 * Real.pi / 4.0)))
      (0 + 1 * 0.9 * Real.sin (((0:ℕ) : ℝ) * (2.0 * Real.pi / 4.0)))
      0.03 0.0 0.5 1.0 0.9 ∈ speedometerCalls initDashboard 0 0 1 :=
  (gauge_tick_marks initDashboard 0 0 1).2.1 0 (by norm_num)

/-- C8: a null scene handle, or a scene whose capacity cannot hold even one
    primitive, skips the whole overlay pass: nothing is appended and the
    scene is returned unchanged. -/
theorem modifyScene_guard :
    (∀ (d : DashboardData) (data : MjData) (carBody : Option Vec3) (bt ht : ℝ),
      ModifyScene d data carBody bt ht none = none) ∧
    (∀ (d : DashboardData) (data : MjData) (carBody : Option Vec3) (bt ht : ℝ)
      (s : MjvScene), s.maxgeom = 0 →
      ModifyScene d data carBody bt ht (some s) = some s) := by
  refine ⟨fun d data cb bt ht => rfl, fun d data cb bt ht s h => ?_⟩
  simp only [ModifyScene]
  rw [if_pos h]

/-- Witness for C8 on a zero-capacity scene. -/
theorem modifyScene_guard_witness :
    ModifyScene initDashboard (MjData.mk (0, 0) (0, 0) (Vec3.mk 0 0 0) 0)
      none 0 0 (some (MjvScene.mk 0 [])) = some (MjvScene.mk 0 []) :=
  modifyScene_guard.2 initDashboard (MjData.mk (0, 0) (0, 0) (Vec3.mk 0 0 0) 0)
    none 0 0 (MjvScene.mk 0 []) rfl

/-- Every append call writes a geom tagged with the decoration category. -/
lemma geomOf_category (c : AppendCall) : (geomOf c).category = mjCAT_DECOR := by
  cases c <;> rfl

/-- C10: every geom emitted during the overlay pass carries mjCAT_DECOR;
    in particular the goal-marker sphere call is part of the pass, its geom
    has type sphere, and it too is tagged as decoration; the geoms the pass
    adds to the scene are exactly decoration-tagged ones. -/
theorem modifyScene_all_decor (d : DashboardData) (data : MjData)
    (carBody : Option Vec3) (bt ht : ℝ) (s : MjvScene)
    (h : s.geoms.length ≤ s.maxgeom) :
    (∀ gm ∈ (ModifySceneCalls d data carBody bt ht).map geomOf,
      gm.category = mjCAT_DECOR) ∧
    AppendCall.goalSphere data.mocap_pos.x data.mocap_pos.y ∈
      ModifySceneCalls d data carBody bt ht ∧
    (geomOf (AppendCall.goalSphere data.mocap_pos.x data.mocap_pos.y)).type =
      GeomType.sphere ∧
    (geomOf (AppendCall.goalSphere data.mocap_pos.x data.mocap_pos.y)).category =
      mjCAT_DECOR ∧
    ∃ new : List MjvGeom,
      ((ModifySceneCalls d data carBody bt ht).foldl applyCall s).geoms =
        s.geoms ++ new ∧
      ∀ gm ∈ new, gm.category = mjCAT_DECOR := by
  refine ⟨?_, ?_, rfl, rfl, ?_⟩
  · intro gm hgm
    obtain ⟨c, _, rfl⟩ := List.mem_map.mp hgm
    exact geomOf_category c
  · simp [ModifySceneCalls]
  · obtain ⟨h1, h2⟩ := foldl_applyCall (ModifySceneCalls d data carBody bt ht) s h
    refine ⟨_, h2, ?_⟩
    intro gm hgm
    have hgm' := List.take_subset _ _ hgm
    obtain ⟨c, _, rfl⟩ := List.mem_map.mp hgm'
    exact geomOf_category c

/-- Witness for C10 at a concrete state and an empty scene of capacity 2. -/
theorem modifyScene_all_decor_witness :
    AppendCall.goalSphere 2 3 ∈
      ModifySceneCalls initDashboard (MjData.mk (0, 0) (0, 0) (Vec3.mk 2 3 0.01) 0)
        none 0 0 :=
  (modifyScene_all_decor initDashboard
    (MjData.mk (0, 0) (0, 0) (Vec3.mk 2 3 0.01) 0) none 0 0
    (MjvScene.mk 2 []) (by simp)).2.1
